import Mathlib

/-!
Verification of the order-management backend (FastAPI-React-TopSaude).

Shallow embedding of the order-creation engine, the order lifecycle state
machine, and the persistence contracts of the Order Store and Catalog Store,
translated from `src/backend/src`:
- `domain/entities/order_item.py`, `domain/entities/order.py`,
  `domain/entities/product.py`
- `infrastructure/repositories/order_repository.py`,
  `product_repository.py`, `customer_repository.py`
- `application/use_cases/order_use_cases.py`

Modelling conventions:
- Python `Decimal` values are modelled as exact rationals (`ℚ`).
- Python `int` is modelled as `Int` (unbounded, signed — `stock_qty -= n`
  can go negative exactly as in Python).
- Exceptions are modelled as `Except` results; SQLAlchemy sessions are
  modelled as a `DB` state with a committed snapshot and a pending
  (flushed-but-uncommitted) snapshot; `commit`/`rollback` move between them.
- Timestamps are opaque `Int` clock values supplied by the caller
  (`server_default=func.now()` / `onupdate=func.now()`).
-/

namespace TopSaude

/-- Single-quote character, used inside error-message strings. -/
def sq : String := "'"

/-- `core/constants.py`: `OrderStatus(str, Enum)` with values CREATED, PAID,
CANCELLED. Entity `status` fields are plain strings in the source, so the
enum is carried as its string values. -/
inductive OrderStatus
  | CREATED
  | PAID
  | CANCELLED
deriving DecidableEq, Repr

/-- The `.value` string of an `OrderStatus` member. -/
def OrderStatus.value : OrderStatus → String
  | .CREATED => "CREATED"
  | .PAID => "PAID"
  | .CANCELLED => "CANCELLED"

/-- The list `[s.value for s in OrderStatus]`. -/
def OrderStatus.values : List String :=
  [OrderStatus.CREATED.value, OrderStatus.PAID.value, OrderStatus.CANCELLED.value]

/-- `domain/entities/product.py` `ProductEntity` (timestamp fields omitted:
no claim touches product timestamps). Also stands for a row of the
`products` table, whose columns coincide. -/
structure ProductEntity where
  id : Int
  name : String
  sku : String
  price : ℚ
  stock_qty : Int
  is_active : Bool
deriving DecidableEq, Repr

/-- `domain/entities/customer.py` `CustomerEntity`, restricted to the fields
the order-creation engine reads (id, is_active). -/
structure CustomerEntity where
  id : Int
  is_active : Bool
deriving DecidableEq, Repr

/-- `domain/entities/order_item.py` `OrderItemEntity` (fields after
`__init__` has run). -/
structure OrderItemEntity where
  id : Option Int
  order_id : Option Int
  product_id : Int
  unit_price : ℚ
  quantity : Int
  line_total : ℚ
deriving DecidableEq, Repr

/-- `OrderItemEntity.calculate_line_total`: `unit_price * Decimal(quantity)`. -/
def OrderItemEntity.calculate_line_total (it : OrderItemEntity) : ℚ :=
  it.unit_price * (it.quantity : ℚ)

/-- `OrderItemEntity.__init__`. The last assignment is
`self.line_total = line_total or self.calculate_line_total()`: Python `or`
replaces any *falsy* supplied value — both `None` and `Decimal("0")` — with
the computed product. -/
def OrderItemEntity.init (id order_id : Option Int) (product_id : Int)
    (unit_price : ℚ) (quantity : Int) (line_total : Option ℚ) : OrderItemEntity :=
  { id := id
    order_id := order_id
    product_id := product_id
    unit_price := unit_price
    quantity := quantity
    line_total :=
      match line_total with
      | some v => if v = 0 then unit_price * (quantity : ℚ) else v
      | none => unit_price * (quantity : ℚ) }

/-- `OrderItemEntity.validate`: raises `ValueError` (modelled as
`Except.error` carrying the message) on the first violated rule. -/
def OrderItemEntity.validate (it : OrderItemEntity) : Except String Unit :=
  if it.product_id ≤ 0 then
    .error "ID do produto deve ser maior que zero"
  else if it.unit_price ≤ 0 then
    .error "Preço unitário deve ser maior que zero"
  else if it.quantity ≤ 0 then
    .error "Quantidade deve ser maior que zero"
  else if it.line_total ≠ it.calculate_line_total then
    .error ("Total da linha incorreto. Esperado: " ++ toString it.calculate_line_total
      ++ ", Recebido: " ++ toString it.line_total)
  else
    .ok ()

/-- `domain/entities/order.py` `OrderEntity`. -/
structure OrderEntity where
  id : Option Int
  customer_id : Int
  total_amount : ℚ
  status : String
  idempotency_key : Option String
  created_at : Option Int
  updated_at : Option Int
  items : List OrderItemEntity
deriving DecidableEq, Repr

/-- `OrderEntity.validate`. -/
def OrderEntity.validate (o : OrderEntity) : Except String Unit :=
  if o.customer_id ≤ 0 then
    .error "ID do cliente deve ser maior que zero"
  else if o.total_amount < 0 then
    .error "Valor total não pode ser negativo"
  else if o.status ∉ OrderStatus.values then
    .error ("Status inválido: " ++ o.status)
  else if o.items.isEmpty then
    .error "Pedido deve conter ao menos um item"
  else
    .ok ()

/-- `OrderEntity.can_be_cancelled`: `status in [OrderStatus.CREATED.value]`. -/
def OrderEntity.can_be_cancelled (o : OrderEntity) : Bool :=
  o.status ∈ [OrderStatus.CREATED.value]

/-- `OrderEntity.cancel`: raises `ValueError` (the `OrderCannotBeCancelled`
business-rule kind of spec §7, which maps kinds rather than concrete
exception classes) unless `can_be_cancelled`; otherwise sets status to
CANCELLED. On failure the entity is returned unmodified by the raise. -/
def OrderEntity.cancel (o : OrderEntity) : Except String OrderEntity :=
  if ¬ o.can_be_cancelled then
    .error ("Pedido com status " ++ o.status ++ " não pode ser cancelado")
  else
    .ok { o with status := OrderStatus.CANCELLED.value }

/-- `OrderEntity.mark_as_paid`: raises `ValueError` (the `OrderCannotBePaid`
kind) unless status is CREATED; otherwise sets status to PAID. -/
def OrderEntity.mark_as_paid (o : OrderEntity) : Except String OrderEntity :=
  if o.status ≠ OrderStatus.CREATED.value then
    .error "Apenas pedidos criados podem ser marcados como pagos"
  else
    .ok { o with status := OrderStatus.PAID.value }

/-! ## Persistence model: tables, sessions, transactions -/

/-- A row of the `orders` table (`infrastructure/database/models.py`).
`created_at` has `server_default=func.now()`; `updated_at` has
`onupdate=func.now()` and is NULL until the first UPDATE. -/
structure OrderRow where
  id : Int
  customer_id : Int
  total_amount : ℚ
  status : String
  idempotency_key : Option String
  created_at : Int
  updated_at : Option Int
deriving DecidableEq, Repr

/-- A row of the `order_items` table. -/
structure OrderItemRow where
  id : Int
  order_id : Int
  product_id : Int
  unit_price : ℚ
  quantity : Int
  line_total : ℚ
deriving DecidableEq, Repr

/-- The relational state: the four tables plus the autoincrement counters
for the two order tables. Product and customer rows carry the same columns
as their entities, so the entity structures double as rows. -/
structure Stores where
  products : List ProductEntity
  customers : List CustomerEntity
  orders : List OrderRow
  order_items : List OrderItemRow
  next_order_id : Int
  next_item_id : Int
deriving DecidableEq, Repr

/-- A SQLAlchemy session over the database: the durably committed snapshot
and the pending snapshot the session sees (committed state plus flushed,
not-yet-committed changes). A fresh session has `pending = committed`. -/
structure DB where
  committed : Stores
  pending : Stores
deriving DecidableEq, Repr

/-- `session.commit()`: pending changes become durable. -/
def DB.commit (db : DB) : DB := ⟨db.pending, db.pending⟩

/-- `session.rollback()`: pending changes are discarded; the committed
snapshot is untouched. -/
def DB.rollback (db : DB) : DB := ⟨db.committed, db.committed⟩

/-- The business-error kinds raised by the embedded code, each carrying its
message (`domain/exceptions/business_exceptions.py` plus `ValueError`;
`internal` stands for an unexpected storage-layer failure). -/
inductive Err
  | customerNotFound (msg : String)
  | productNotFound (msg : String)
  | insufficientStock (msg : String)
  | valueError (msg : String)
  | orderNotFound (msg : String)
  | orderCannotBeCancelled (msg : String)
  | orderCannotBePaid (msg : String)
  | duplicateSKU (msg : String)
  | internal
deriving DecidableEq, Repr

/-! ## Repositories (`infrastructure/repositories`) -/

namespace ProductRepository

/-- `ProductRepository.get_by_id`: `query(Product).filter(Product.id == product_id).first()`. -/
def get_by_id (s : Stores) (product_id : Int) : Option ProductEntity :=
  s.products.find? (fun p => p.id = product_id)

/-- `ProductRepository.update`: fetches the row, raises `ProductNotFound`
if absent, checks SKU uniqueness only when the SKU changed, overwrites the
row fields from the entity and flushes (no commit — the pending snapshot is
returned). `id` is the primary key, so overwriting by id-match touches one
row. -/
def update (s : Stores) (product : ProductEntity) : Except Err (ProductEntity × Stores) :=
  match s.products.find? (fun p => p.id = product.id) with
  | none =>
      .error (.productNotFound ("Produto com ID " ++ toString product.id ++ " não encontrado"))
  | some db_product =>
      if product.sku ≠ db_product.sku
          ∧ (s.products.find? (fun p => p.sku = product.sku ∧ p.id ≠ product.id)).isSome then
        .error (.duplicateSKU ("SKU " ++ sq ++ product.sku ++ sq ++ " já existe em outro produto"))
      else
        let row : ProductEntity :=
          { db_product with
            name := product.name, sku := product.sku, price := product.price,
            stock_qty := product.stock_qty, is_active := product.is_active }
        .ok (row, { s with products := s.products.map (fun p => if p.id = product.id then row else p) })

end ProductRepository

namespace CustomerRepository

/-- `CustomerRepository.get_by_id`. -/
def get_by_id (s : Stores) (customer_id : Int) : Option CustomerEntity :=
  s.customers.find? (fun c => c.id = customer_id)

end CustomerRepository

namespace OrderRepository

/-- `OrderRepository._to_entity`: rebuilds the aggregate from the header row
and the `order_items` rows referencing it (the ORM `items` relationship).
Each item goes through the `OrderItemEntity` constructor. -/
def to_entity (s : Stores) (row : OrderRow) : OrderEntity :=
  { id := some row.id
    customer_id := row.customer_id
    total_amount := row.total_amount
    status := row.status
    idempotency_key := row.idempotency_key
    created_at := some row.created_at
    updated_at := row.updated_at
    items := (s.order_items.filter (fun it => it.order_id = row.id)).map (fun it =>
      OrderItemEntity.init (some it.id) (some it.order_id) it.product_id
        it.unit_price it.quantity (some it.line_total)) }

/-- `OrderRepository.get_by_id`. -/
def get_by_id (s : Stores) (order_id : Int) : Option OrderEntity :=
  (s.orders.find? (fun r => r.id = order_id)).map (to_entity s)

/-- `OrderRepository.get_by_idempotency_key`:
`query(Order).filter(Order.idempotency_key == idempotency_key).first()`
(SQL equality: a NULL key never matches). -/
def get_by_idempotency_key (s : Stores) (idempotency_key : String) : Option OrderEntity :=
  (s.orders.find? (fun r => r.idempotency_key = some idempotency_key)).map (to_entity s)

/-- The `order_items` rows inserted by `OrderRepository.create`: one row per
item entity, referencing the freshly generated order id, with consecutive
autoincrement ids starting at `nid`. -/
def itemRowsFrom (oid : Int) (nid : Int) : List OrderItemEntity → List OrderItemRow
  | [] => []
  | it :: rest =>
      { id := nid, order_id := oid, product_id := it.product_id,
        unit_price := it.unit_price, quantity := it.quantity,
        line_total := it.line_total } :: itemRowsFrom oid (nid + 1) rest

/-- `OrderRepository.create`: inserts the header row, flushes to obtain the
generated id, inserts each item row referencing it, then **commits** and
returns the reloaded aggregate. Note the commit happens inside `create`
itself (`order_repository.py` line 48). -/
def create (db : DB) (now : Int) (order : OrderEntity) : OrderEntity × DB :=
  let s := db.pending
  let oid := s.next_order_id
  let row : OrderRow :=
    { id := oid, customer_id := order.customer_id, total_amount := order.total_amount,
      status := order.status, idempotency_key := order.idempotency_key,
      created_at := now, updated_at := none }
  let s' : Stores :=
    { s with
      orders := s.orders ++ [row]
      order_items := s.order_items ++ itemRowsFrom oid s.next_item_id order.items
      next_order_id := oid + 1
      next_item_id := s.next_item_id + order.items.length }
  let db' := DB.commit ⟨db.committed, s'⟩
  (to_entity s' row, db')

/-- `OrderRepository.list_all`: applies the customer filter (Python
truthiness: `if customer_id:` skips the filter for `None` **and** for `0`),
counts the filtered set **before** pagination, then applies offset/limit
and commits nothing. Returns `(rows, total)`. -/
def list_all (s : Stores) (skip limit : Nat) (customer_id : Option Int) :
    List OrderRow × Nat :=
  let query : List OrderRow :=
    match customer_id with
    | some c => if c ≠ 0 then s.orders.filter (fun r => r.customer_id = c) else s.orders
    | none => s.orders
  let total := query.length
  ((query.drop skip).take limit, total)

/-- `OrderRepository.update`: fetches the row by the entity id, raises
`OrderNotFound` if absent, writes `customer_id`, `total_amount` and
`status` from the entity, commits (`updated_at` is set by the ORM
`onupdate` hook) and returns the reloaded aggregate. The `order_items`
table is untouched. -/
def update (s : Stores) (now : Int) (order : OrderEntity) : Except Err (OrderEntity × Stores) :=
  match s.orders.find? (fun r => some r.id = order.id) with
  | none =>
      .error (.orderNotFound ("Pedido com ID "
        ++ (match order.id with | some i => toString i | none => "None") ++ " não encontrado"))
  | some db_order =>
      let row : OrderRow :=
        { db_order with
          customer_id := order.customer_id, total_amount := order.total_amount,
          status := order.status, updated_at := some now }
      let s' : Stores :=
        { s with orders := s.orders.map (fun r => if some r.id = order.id then row else r) }
      .ok (to_entity s' row, s')

end OrderRepository

/-! ## Order use cases (`application/use_cases/order_use_cases.py`) -/

/-- `application/dtos/order_dto.py` `OrderItemCreate` (pydantic enforces
`product_id > 0` and `quantity > 0` at the API boundary; the use case takes
the parsed values). -/
structure OrderItemCreate where
  product_id : Int
  quantity : Int
deriving DecidableEq, Repr

/-- `application/dtos/order_dto.py` `OrderCreate`. -/
structure OrderCreate where
  customer_id : Int
  items : List OrderItemCreate
deriving DecidableEq, Repr

namespace OrderUseCases

/-- The per-item validation/pricing loop of `create_order` (step 3, lines
129–184): for each requested item, in submission order, fetch the product,
fail on absence / inactivity / insufficient stock, snapshot the price,
compute the line total, build and validate the item entity, and accumulate
the running total. The loop only reads the store. Raising aborts the loop
at the failing item. -/
def validateItems (s : Stores) : List OrderItemCreate → Except Err (List OrderItemEntity × ℚ)
  | [] => .ok ([], 0)
  | item_data :: rest =>
      match ProductRepository.get_by_id s item_data.product_id with
      | none =>
          .error (.productNotFound
            ("Produto com ID " ++ toString item_data.product_id ++ " não encontrado"))
      | some product =>
          if product.is_active = false then
            .error (.valueError ("Produto " ++ sq ++ product.name ++ sq
              ++ " (ID " ++ toString item_data.product_id ++ ") está inativo"))
          else if product.stock_qty < item_data.quantity then
            .error (.insufficientStock
              ("Estoque insuficiente para produto " ++ sq ++ product.name ++ sq
                ++ ". Disponível: " ++ toString product.stock_qty
                ++ ", Solicitado: " ++ toString item_data.quantity))
          else
            let unit_price : ℚ := product.price
            let quantity := item_data.quantity
            let line_total : ℚ := unit_price * (quantity : ℚ)
            let item_entity := OrderItemEntity.init none none item_data.product_id
              unit_price quantity (some line_total)
            match item_entity.validate with
            | .error m => .error (.valueError m)
            | .ok _ =>
                match validateItems s rest with
                | .error e => .error e
                | .ok (items, total) => .ok (item_entity :: items, line_total + total)

/-- The stock-decrement loop of `create_order` (step 6, lines 211–214): for
each item, re-fetch the product from the session, subtract the quantity and
persist through `ProductRepository.update` (flush only). `fault = some i`
injects an unexpected storage failure at loop index `i`, modelling the
environment of step 6 (the catalog UPDATE failing); `fault = none` is the
fault-free run. A `None` product would raise `AttributeError` in Python —
modelled as an internal error (unreachable after validation). -/
def stockLoop (fault : Option Nat) (idx : Nat) (db : DB) :
    List OrderItemCreate → Except Err DB
  | [] => .ok db
  | item_data :: rest =>
      if fault = some idx then
        .error .internal
      else
        match ProductRepository.get_by_id db.pending item_data.product_id with
        | none => .error .internal
        | some product =>
            let product' := { product with stock_qty := product.stock_qty - item_data.quantity }
            match ProductRepository.update db.pending product' with
            | .error e => .error e
            | .ok (_, s') => stockLoop fault (idx + 1) ⟨db.committed, s'⟩ rest

/-- `OrderUseCases.create_order` (lines 46–253). The call runs on a fresh
session over the committed state `s`; the returned store is the committed
state observable after the call (any `rollback` discards only pending
changes). Steps: (1) idempotency lookup with early return; (2) customer
validation; (3) per-item validation loop; (4) aggregate construction and
validation; (5) `OrderRepository.create` — which commits; (6) stock
decrement loop; final commit. Every exception handler rolls back and
re-raises. -/
def create_order (s : Stores) (order_data : OrderCreate) (idempotency_key : String)
    (now : Int) (fault : Option Nat) : Except Err OrderEntity × Stores :=
  let db0 : DB := ⟨s, s⟩
  match OrderRepository.get_by_idempotency_key db0.pending idempotency_key with
  | some existing_order => (.ok existing_order, db0.committed)
  | none =>
      match CustomerRepository.get_by_id db0.pending order_data.customer_id with
      | none =>
          (.error (.customerNotFound
            ("Cliente com ID " ++ toString order_data.customer_id ++ " não encontrado")),
            db0.rollback.committed)
      | some customer =>
          if customer.is_active = false then
            (.error (.valueError
              ("Cliente com ID " ++ toString order_data.customer_id ++ " está inativo")),
              db0.rollback.committed)
          else
            match validateItems db0.pending order_data.items with
            | .error e => (.error e, db0.rollback.committed)
            | .ok (items_entities, total_amount) =>
                let order_entity : OrderEntity :=
                  { id := none, customer_id := order_data.customer_id,
                    total_amount := total_amount, status := OrderStatus.CREATED.value,
                    idempotency_key := some idempotency_key,
                    created_at := none, updated_at := none, items := items_entities }
                match order_entity.validate with
                | .error m => (.error (.valueError m), db0.rollback.committed)
                | .ok _ =>
                    let cr := OrderRepository.create db0 now order_entity
                    match stockLoop fault 0 cr.2 order_data.items with
                    | .error e => (.error e, cr.2.rollback.committed)
                    | .ok db2 => (.ok cr.1, db2.commit.committed)

/-- `OrderUseCases.get_order_by_id`. -/
def get_order_by_id (s : Stores) (order_id : Int) : Except Err OrderEntity :=
  match OrderRepository.get_by_id s order_id with
  | none => .error (.orderNotFound ("Pedido com ID " ++ toString order_id ++ " não encontrado"))
  | some order => .ok order

/-- The pagination envelope built by `list_orders`
(`OrderListResponse`, with entities in place of the float-ified DTOs). -/
structure OrderListResponse where
  items : List OrderEntity
  total : Nat
  page : Nat
  page_size : Nat
  total_pages : Nat
deriving DecidableEq, Repr

/-- `OrderUseCases.list_orders` (lines 278–326): `skip = (page - 1) *
page_size`, one `list_all` call with `limit = page_size`, and
`total_pages = (total + page_size - 1) // page_size`. -/
def list_orders (s : Stores) (page page_size : Nat) (customer_id : Option Int) :
    OrderListResponse :=
  let skip := (page - 1) * page_size
  let r : List OrderRow × Nat := OrderRepository.list_all s skip page_size customer_id
  { items := r.1.map (OrderRepository.to_entity s)
    total := r.2
    page := page
    page_size := page_size
    total_pages := (r.2 + page_size - 1) / page_size }

/-- Modelled from the spec: `OrderUseCases.cancel_order`. The method is
called by the API route `PATCH /orders/{order_id}/cancel` and by the test
suite, but its body is absent from the repository snapshot. Spec §4.2:
"the calling use case fetches by id (fails with `OrderNotFound` if absent),
applies the transition in memory, then persists via Order Store's update";
the entity raise surfaces as the `OrderCannotBeCancelled` kind (§7). -/
def cancel_order (s : Stores) (order_id : Int) (now : Int) :
    Except Err OrderEntity × Stores :=
  match OrderRepository.get_by_id s order_id with
  | none =>
      (.error (.orderNotFound ("Pedido com ID " ++ toString order_id ++ " não encontrado")), s)
  | some order =>
      match order.cancel with
      | .error m => (.error (.orderCannotBeCancelled m), s)
      | .ok order' =>
          match OrderRepository.update s now order' with
          | .error e => (.error e, s)
          | .ok (ent, s') => (.ok ent, s')

/-- Modelled from the spec: `OrderUseCases.mark_as_paid`, the twin of
`cancel_order` for `PATCH /orders/{order_id}/pay` (also absent from the
snapshot): fetch by id, fail with `OrderNotFound` if absent, apply
`mark_as_paid` in memory (its raise surfaces as the `OrderCannotBePaid`
kind), persist via Order Store update. -/
def mark_as_paid (s : Stores) (order_id : Int) (now : Int) :
    Except Err OrderEntity × Stores :=
  match OrderRepository.get_by_id s order_id with
  | none =>
      (.error (.orderNotFound ("Pedido com ID " ++ toString order_id ++ " não encontrado")), s)
  | some order =>
      match order.mark_as_paid with
      | .error m => (.error (.orderCannotBePaid m), s)
      | .ok order' =>
          match OrderRepository.update s now order' with
          | .error e => (.error e, s)
          | .ok (ent, s') => (.ok ent, s')

end OrderUseCases

/-! ## Theorems -/

/-- C6: lifecycle legality of the order state machine
(`domain/entities/order.py`). `cancel()` succeeds exactly when the status
is CREATED, setting it to CANCELLED, and otherwise fails with the
`OrderCannotBeCancelled` business-rule kind (spec §7 maps kinds, not
concrete classes; the raise is a `ValueError` whose message carries the
current status). `markAsPaid()` succeeds exactly when the status is
CREATED, setting it to PAID, and otherwise — including from PAID — fails
with the `OrderCannotBePaid` kind. PAID and CANCELLED are therefore
terminal, and on failure no modified entity is produced (the raise happens
before any mutation). -/
theorem order_lifecycle_legality (o : OrderEntity) :
    ((∃ o', o.cancel = .ok o') ↔ o.status = OrderStatus.CREATED.value) ∧
    ((∃ o', o.mark_as_paid = .ok o') ↔ o.status = OrderStatus.CREATED.value) ∧
    (o.status = OrderStatus.CREATED.value →
      o.cancel = .ok { o with status := OrderStatus.CANCELLED.value } ∧
      o.mark_as_paid = .ok { o with status := OrderStatus.PAID.value }) ∧
    (o.status ≠ OrderStatus.CREATED.value →
      o.cancel = .error ("Pedido com status " ++ o.status ++ " não pode ser cancelado") ∧
      o.mark_as_paid = .error "Apenas pedidos criados podem ser marcados como pagos") := by
  by_cases h : o.status = OrderStatus.CREATED.value <;>
    simp [OrderEntity.cancel, OrderEntity.mark_as_paid, OrderEntity.can_be_cancelled, h]

/-- An order in the PAID state, used to witness the lifecycle theorem. -/
def paidOrder : OrderEntity :=
  { id := some 1, customer_id := 1, total_amount := 10, status := OrderStatus.PAID.value,
    idempotency_key := some "k", created_at := some 0, updated_at := none, items := [] }

/-- C6 witness: from PAID, both transitions fail with the expected messages. -/
theorem order_lifecycle_legality_witness :
    paidOrder.cancel = .error "Pedido com status PAID não pode ser cancelado" ∧
    paidOrder.mark_as_paid = .error "Apenas pedidos criados podem ser marcados como pagos" :=
  (order_lifecycle_legality paidOrder).2.2.2 (by decide)

/-- C10 counterexample: the claim says every caller-supplied `line_total`
differing from `unit_price × quantity` is rejected by `validate()`. But the
constructor assigns `line_total or self.calculate_line_total()`, and Python
`or` treats `Decimal("0")` as falsy: a supplied `line_total = 0` (≠ 10 × 3)
is silently replaced by the computed 30 and `validate()` accepts. -/
theorem line_total_zero_silently_replaced :
    (OrderItemEntity.init none none 1 10 3 (some 0)).validate = .ok () ∧
    (OrderItemEntity.init none none 1 10 3 (some 0)).line_total = 30 ∧
    (0 : ℚ) ≠ 10 * (3 : ℚ) := by
  refine ⟨?_, ?_, by norm_num⟩ <;>
    norm_num [OrderItemEntity.init, OrderItemEntity.validate, OrderItemEntity.calculate_line_total]

/-- C10 (amended): for every caller-supplied **nonzero** `line_total` that
differs from `unit_price × quantity`, the constructor keeps the supplied
value and `validate()` rejects the item with a validation error; a supplied
`line_total` of 0 is falsy in Python and is silently replaced by the
computed product in the constructor (like an omitted one). -/
theorem line_total_checked_not_derived (pid : Int) (up : ℚ) (q : Int) (lt : ℚ) :
    (lt ≠ 0 → lt ≠ up * (q : ℚ) →
      (OrderItemEntity.init none none pid up q (some lt)).line_total = lt ∧
      ∃ m, (OrderItemEntity.init none none pid up q (some lt)).validate = .error m) ∧
    (lt = 0 →
      (OrderItemEntity.init none none pid up q (some lt)).line_total = up * (q : ℚ)) := by
  constructor
  · intro h0 hne
    have hlt : (OrderItemEntity.init none none pid up q (some lt)).line_total = lt := by
      simp [OrderItemEntity.init, h0]
    refine ⟨hlt, ?_⟩
    have hne' : (OrderItemEntity.init none none pid up q (some lt)).validate ≠ .ok () := by
      intro hok
      unfold OrderItemEntity.validate at hok
      split at hok
      · exact absurd hok (by simp)
      · split at hok
        · exact absurd hok (by simp)
        · split at hok
          · exact absurd hok (by simp)
          · split at hok
            · exact absurd hok (by simp)
            · rename_i hc
              rw [not_ne_iff] at hc
              rw [hlt] at hc
              exact hne (hc.trans (by simp [OrderItemEntity.calculate_line_total, OrderItemEntity.init]))
    cases hv : (OrderItemEntity.init none none pid up q (some lt)).validate with
    | error m => exact ⟨m, rfl⟩
    | ok u => cases u; exact absurd hv hne'
  · intro h0
    simp [OrderItemEntity.init, h0]

/-- C10 witness for the amended claim: a supplied `line_total = 99 ≠ 30`
is kept and rejected; a supplied `line_total = 0` is replaced by 30. -/
theorem line_total_checked_not_derived_witness :
    ((OrderItemEntity.init none none 1 10 3 (some 99)).line_total = 99 ∧
      ∃ m, (OrderItemEntity.init none none 1 10 3 (some 99)).validate = .error m) ∧
    (OrderItemEntity.init none none 1 10 3 (some 0)).line_total = 10 * (3 : ℚ) :=
  ⟨(line_total_checked_not_derived 1 10 3 99).1 (by norm_num) (by norm_num),
   (line_total_checked_not_derived 1 10 3 0).2 rfl⟩

/-- A one-product, one-customer catalog used to exercise order creation:
product 1 (price 10, stock 5, active), customer 1 (active), empty order
store. -/
def faultStore : Stores :=
  { products := [{ id := 1, name := "Dipirona", sku := "SKU1", price := 10, stock_qty := 5, is_active := true }]
    customers := [{ id := 1, is_active := true }]
    orders := [], order_items := [], next_order_id := 1, next_item_id := 1 }

/-- A valid one-item request for `faultStore`: customer 1 orders 2 of product 1. -/
def faultReq : OrderCreate := { customer_id := 1, items := [{ product_id := 1, quantity := 2 }] }

/-- C1: order creation is **not** atomic across persistence and inventory.
`OrderRepository.create` issues its own `commit` (`order_repository.py`
line 48) before the stock-decrement loop of step 6 runs, so the
order-header/item insert and the stock decrement commit in two separate
transactions — although `create_order`'s docstring promises "Transação
atômica (tudo ou nada)" and the step-6 comment says the decrement "deve
estar na MESMA transação do create()". Concretely: on a valid one-item
order where the catalog UPDATE of step 6 raises a storage error, the call
fails and rolls back, yet the committed Order Store now contains the order
row with the request's idempotency key (and the stock is unchanged) — an
observable side effect of a failed call, contradicting the claim (and the
code's own comments). -/
theorem create_order_commits_before_stock_decrement :
    (OrderUseCases.create_order faultStore faultReq "k1" 0 (some 0)).1 = .error .internal ∧
    ((OrderUseCases.create_order faultStore faultReq "k1" 0 (some 0)).2.orders.map
      (fun r => r.idempotency_key)) = [some "k1"] ∧
    (OrderUseCases.create_order faultStore faultReq "k1" 0 (some 0)).2.products
      = faultStore.products := by
  norm_num [OrderUseCases.create_order, OrderUseCases.validateItems, OrderUseCases.stockLoop,
    OrderRepository.get_by_idempotency_key, OrderRepository.create, OrderRepository.to_entity,
    OrderRepository.itemRowsFrom, CustomerRepository.get_by_id, ProductRepository.get_by_id,
    ProductRepository.update, OrderItemEntity.init, OrderItemEntity.validate,
    OrderItemEntity.calculate_line_total, OrderEntity.validate, OrderStatus.value,
    OrderStatus.values, DB.commit, DB.rollback, faultStore, faultReq, List.find?]

/-- Order store holding one persisted order (id 1, customer 1, total 10,
CREATED, key "key-1") with one item row. -/
def updStore : Stores :=
  { products := [], customers := []
    orders := [{ id := 1, customer_id := 1, total_amount := 10, status := "CREATED", idempotency_key := some "key-1", created_at := 0, updated_at := none }]
    order_items := [{ id := 1, order_id := 1, product_id := 1, unit_price := 10, quantity := 1, line_total := 10 }]
    next_order_id := 2, next_item_id := 2 }

/-- An entity targeting order 1 but carrying a different customer id and
total amount. -/
def updEntity : OrderEntity :=
  { id := some 1, customer_id := 2, total_amount := 99, status := "PAID",
    idempotency_key := some "other", created_at := some 9, updated_at := some 9, items := [] }

/-- The header row of `updStore`. -/
def updRow : OrderRow :=
  { id := 1, customer_id := 1, total_amount := 10, status := "CREATED",
    idempotency_key := some "key-1", created_at := 0, updated_at := none }

/-- C8 counterexample: `OrderRepository.update` does **not** write only the
status and updated_at columns. The stored order has customer_id 1 and
total_amount 10; updating it from an entity carrying customer_id 2 and
total_amount 99 rewrites both columns (`order_repository.py` lines
102–104 assign `customer_id`, `total_amount` and `status`). -/
theorem order_update_rewrites_header_counterexample :
    (updStore.orders.map (fun r => (r.customer_id, r.total_amount))) = [(1, 10)] ∧
    ((OrderRepository.update updStore 5 updEntity).map
      (fun p => p.2.orders.map (fun r => (r.customer_id, r.total_amount)))) = .ok [(2, 99)] := by
  constructor <;> rfl

/-- C8 (amended): for every persisted order, `update` writes the status —
and also the customer_id and total_amount — columns from the passed entity,
plus updated_at (ORM `onupdate`); it does not touch the order's items, any
other table, the autoincrement counters, or the row's idempotency_key and
created_at, and leaves every other order row unchanged. (On the lifecycle
path the caller passes the fetched entity mutated only in status, so
customer_id and total_amount are rewritten with their stored values.) -/
theorem order_update_frame (s : Stores) (now : Int) (o : OrderEntity) (row : OrderRow)
    (h : s.orders.find? (fun r => some r.id = o.id) = some row) :
    ∃ ent s', OrderRepository.update s now o = .ok (ent, s') ∧
      s'.order_items = s.order_items ∧
      s'.products = s.products ∧
      s'.customers = s.customers ∧
      s'.next_order_id = s.next_order_id ∧
      s'.next_item_id = s.next_item_id ∧
      s'.orders = s.orders.map (fun r =>
        if some r.id = o.id then
          { id := row.id, customer_id := o.customer_id, total_amount := o.total_amount,
            status := o.status, idempotency_key := row.idempotency_key,
            created_at := row.created_at, updated_at := some now }
        else r) := by
  unfold OrderRepository.update
  rw [h]
  exact ⟨_, _, rfl, rfl, rfl, rfl, rfl, rfl, rfl⟩

/-- C8 witness: the amended frame property at the concrete store. -/
theorem order_update_frame_witness :
    ∃ ent s', OrderRepository.update updStore 5 updEntity = .ok (ent, s') ∧
      s'.order_items = updStore.order_items ∧
      s'.products = updStore.products ∧
      s'.customers = updStore.customers ∧
      s'.next_order_id = updStore.next_order_id ∧
      s'.next_item_id = updStore.next_item_id ∧
      s'.orders = updStore.orders.map (fun r =>
        if some r.id = updEntity.id then
          { id := updRow.id, customer_id := updEntity.customer_id,
            total_amount := updEntity.total_amount, status := updEntity.status,
            idempotency_key := updRow.idempotency_key,
            created_at := updRow.created_at, updated_at := some 5 }
        else r) :=
  order_update_frame updStore 5 updEntity updRow (by rfl)

/-- C2: `create_order` is idempotent on the idempotency key. If an order
with the key already exists in the Order Store, the call returns exactly
that stored order (hence the same order id) and leaves the store untouched
— so the store's `create` is never reached for that key — and the result
is identical for **any** submitted payload, clock value or environment:
no customer, product or stock validation of the new payload happens
(`order_use_cases.py` lines 88–98 return before the `try` block). -/
theorem create_order_idempotent (s : Stores) (d d' : OrderCreate) (key : String)
    (now now' : Int) (fault fault' : Option Nat) (row : OrderRow)
    (h : s.orders.find? (fun r => r.idempotency_key = some key) = some row) :
    OrderUseCases.create_order s d key now fault = (.ok (OrderRepository.to_entity s row), s) ∧
    OrderUseCases.create_order s d key now fault
      = OrderUseCases.create_order s d' key now' fault' := by
  have h1 : ∀ (d0 : OrderCreate) (n0 : Int) (f0 : Option Nat),
      OrderUseCases.create_order s d0 key n0 f0
        = (.ok (OrderRepository.to_entity s row), s) := by
    intro d0 n0 f0
    unfold OrderUseCases.create_order
    simp [OrderRepository.get_by_idempotency_key, h]
  exact ⟨h1 d now fault, (h1 d now fault).trans (h1 d' now' fault').symm⟩

/-- Store with one existing order under key "k1" (id 7), plus a catalog. -/
def idemStore : Stores :=
  { products := [{ id := 1, name := "P", sku := "S", price := 10, stock_qty := 5, is_active := true }]
    customers := [{ id := 1, is_active := true }]
    orders := [{ id := 7, customer_id := 1, total_amount := 20, status := "CREATED", idempotency_key := some "k1", created_at := 0, updated_at := none }]
    order_items := [], next_order_id := 8, next_item_id := 1 }

/-- The stored order row of `idemStore`. -/
def idemRow : OrderRow :=
  { id := 7, customer_id := 1, total_amount := 20, status := "CREATED",
    idempotency_key := some "k1", created_at := 0, updated_at := none }

/-- A payload that would fail every validation (unknown customer and
product): replaying key "k1" must ignore it. -/
def idemBadReq : OrderCreate := { customer_id := 999, items := [{ product_id := 42, quantity := 1000 }] }

/-- C2 witness: replaying key "k1" with a valid payload and with a garbage
payload returns the stored order 7 both times and leaves the store as is. -/
theorem create_order_idempotent_witness :
    OrderUseCases.create_order idemStore { customer_id := 1, items := [{ product_id := 1, quantity := 2 }] }
        "k1" 3 none = (.ok (OrderRepository.to_entity idemStore idemRow), idemStore) ∧
    OrderUseCases.create_order idemStore { customer_id := 1, items := [{ product_id := 1, quantity := 2 }] }
        "k1" 3 none
      = OrderUseCases.create_order idemStore idemBadReq "k1" 99 (some 0) :=
  create_order_idempotent idemStore _ idemBadReq "k1" 3 99 none (some 0) idemRow (by rfl)

/-- The customer-filtered set of the claim: all orders when no filter is
given, else the orders of that customer (spec §4.3 `listAll`). -/
def customerFiltered (s : Stores) (cid : Option Int) : List OrderRow :=
  match cid with
  | none => s.orders
  | some c => s.orders.filter (fun r => r.customer_id = c)

/-- `(t + ps - 1) / ps` is ceiling division: it is the least `n` with
`t ≤ n * ps`. -/
theorem add_pred_div_le_iff (t ps n : Nat) (h : 1 ≤ ps) :
    (t + ps - 1) / ps ≤ n ↔ t ≤ n * ps := by
  rw [Nat.div_le_iff_le_mul_add_pred h]
  have hc : ps * n = n * ps := Nat.mul_comm ps n
  omega

/-- C9: pagination math of `list_orders`. For every `page ≥ 1` and
`page_size ∈ [1,100]` (the ranges enforced by the route) and every filter
that is absent or a genuine (positive) customer id, the store is queried
with `skip = (page-1) * page_size` and `limit = page_size` — the returned
items are that window of the customer-filtered set — the returned total is
the size of the customer-filtered set before skip/limit, and `total_pages
= (total + page_size - 1) / page_size`, which is exactly
`ceil(total / page_size)`: the least `n` with `total ≤ n * page_size`. -/
theorem list_orders_pagination (s : Stores) (page page_size : Nat) (cid : Option Int)
    (_hp : 1 ≤ page) (hps : 1 ≤ page_size) (_hmax : page_size ≤ 100)
    (hcid : ∀ c, cid = some c → 0 < c) :
    (OrderUseCases.list_orders s page page_size cid).items
      = (((customerFiltered s cid).drop ((page - 1) * page_size)).take page_size).map
          (OrderRepository.to_entity s) ∧
    (OrderUseCases.list_orders s page page_size cid).total = (customerFiltered s cid).length ∧
    (OrderUseCases.list_orders s page page_size cid).total_pages
      = ((customerFiltered s cid).length + page_size - 1) / page_size ∧
    ∀ n : Nat, (OrderUseCases.list_orders s page page_size cid).total_pages ≤ n
      ↔ (OrderUseCases.list_orders s page page_size cid).total ≤ n * page_size := by
  cases cid with
  | none =>
      exact ⟨rfl, rfl, rfl, fun n => add_pred_div_le_iff _ _ n hps⟩
  | some c =>
      have hne : c ≠ 0 := (hcid c rfl).ne'
      refine ⟨?_, ?_, ?_, fun n => ?_⟩ <;>
        simp only [OrderUseCases.list_orders, OrderRepository.list_all, customerFiltered,
          if_pos hne]
      exact add_pred_div_le_iff _ _ n hps

/-- 25 orders of customer 1, for the pagination witness. -/
def pageStore : Stores :=
  { products := [], customers := []
    orders := (List.range 25).map (fun i =>
      { id := (i : Int), customer_id := 1, total_amount := 10, status := "CREATED", idempotency_key := none, created_at := 0, updated_at := none })
    order_items := [], next_order_id := 26, next_item_id := 1 }

/-- C9 witness: total=25, page_size=10 gives total_pages=3; page 2 reads
the window starting at skip=10. -/
theorem list_orders_pagination_witness :
    (OrderUseCases.list_orders pageStore 2 10 none).total = (customerFiltered pageStore none).length ∧
    (OrderUseCases.list_orders pageStore 2 10 none).total_pages
      = ((customerFiltered pageStore none).length + 10 - 1) / 10 ∧
    (customerFiltered pageStore none).length = 25 ∧
    (OrderUseCases.list_orders pageStore 2 10 none).total_pages = 3 ∧
    (2 - 1) * 10 = 10 := by
  have h := list_orders_pagination pageStore 2 10 none (by norm_num) (by norm_num) (by norm_num)
    (fun c hc => by cases hc)
  exact ⟨h.2.1, h.2.2.1, by rfl, by rfl, by rfl⟩

/-- Pointwise-equal predicates find the same element. -/
theorem find?_pred_congr {α : Type} (l : List α) (p q : α → Bool) (h : ∀ a, p a = q a) :
    l.find? p = l.find? q := by
  induction l with
  | nil => rfl
  | cons x xs ih => simp [List.find?, h, ih]

/-- C7: both lifecycle use cases fetch the order by id, fail with
`OrderNotFound` (store untouched) when it is absent, apply the status
transition in memory on the fetched entity, and persist the result through
`OrderRepository.update`: on success the use case returns exactly the
entity/store pair produced by `update` applied to the transitioned entity,
and on an illegal transition it fails with the transition error, store
untouched. (`cancel_order`/`mark_as_paid` are spec-modelled: the route and
the test suite call them but their bodies are absent from the snapshot.) -/
theorem cancel_pay_fetch_transition_update (s : Stores) (oid : Int) (now : Int) :
    (OrderRepository.get_by_id s oid = none →
      OrderUseCases.cancel_order s oid now
        = (.error (.orderNotFound ("Pedido com ID " ++ toString oid ++ " não encontrado")), s) ∧
      OrderUseCases.mark_as_paid s oid now
        = (.error (.orderNotFound ("Pedido com ID " ++ toString oid ++ " não encontrado")), s)) ∧
    (∀ o, OrderRepository.get_by_id s oid = some o →
      (o.status ≠ OrderStatus.CREATED.value →
        OrderUseCases.cancel_order s oid now
          = (.error (.orderCannotBeCancelled
              ("Pedido com status " ++ o.status ++ " não pode ser cancelado")), s) ∧
        OrderUseCases.mark_as_paid s oid now
          = (.error (.orderCannotBePaid "Apenas pedidos criados podem ser marcados como pagos"), s)) ∧
      (o.status = OrderStatus.CREATED.value →
        (∃ ent s', OrderRepository.update s now { o with status := OrderStatus.CANCELLED.value }
            = .ok (ent, s') ∧ OrderUseCases.cancel_order s oid now = (.ok ent, s')) ∧
        (∃ ent s', OrderRepository.update s now { o with status := OrderStatus.PAID.value }
            = .ok (ent, s') ∧ OrderUseCases.mark_as_paid s oid now = (.ok ent, s')))) := by
  constructor
  · intro h
    constructor <;> simp [OrderUseCases.cancel_order, OrderUseCases.mark_as_paid, h]
  · intro o ho
    have hfind : ∃ row, s.orders.find? (fun r => r.id = oid) = some row
        ∧ OrderRepository.to_entity s row = o := by
      unfold OrderRepository.get_by_id at ho
      cases hf : s.orders.find? (fun r => r.id = oid) with
      | none => rw [hf] at ho; simp at ho
      | some row =>
          rw [hf] at ho
          simp at ho
          exact ⟨row, rfl, ho⟩
    obtain ⟨row, hf, hent⟩ := hfind
    have hrowid : row.id = oid := by
      have hp := List.find?_some hf
      simpa using hp
    have hoid : o.id = some row.id := by rw [← hent]; rfl
    constructor
    · intro hst
      have hc : o.cancel
          = .error ("Pedido com status " ++ o.status ++ " não pode ser cancelado") := by
        simp [OrderEntity.cancel, OrderEntity.can_be_cancelled, hst]
      have hm : o.mark_as_paid
          = .error "Apenas pedidos criados podem ser marcados como pagos" := by
        simp [OrderEntity.mark_as_paid, hst]
      constructor
      · unfold OrderUseCases.cancel_order OrderRepository.get_by_id
        rw [hf]
        simp only [Option.map]
        rw [hent, hc]
      · unfold OrderUseCases.mark_as_paid OrderRepository.get_by_id
        rw [hf]
        simp only [Option.map]
        rw [hent, hm]
    · intro hst
      have hup : s.orders.find? (fun r => some r.id = o.id) = some row := by
        rw [hoid]
        rw [find?_pred_congr _ _ (fun r => r.id = oid) (fun a => by simp [hrowid])]
        exact hf
      have hc : o.cancel = .ok { o with status := OrderStatus.CANCELLED.value } := by
        simp [OrderEntity.cancel, OrderEntity.can_be_cancelled, hst]
      have hm : o.mark_as_paid = .ok { o with status := OrderStatus.PAID.value } := by
        simp [OrderEntity.mark_as_paid, hst]
      constructor
      · cases hu : OrderRepository.update s now { o with status := OrderStatus.CANCELLED.value } with
        | error e =>
            exfalso
            unfold OrderRepository.update at hu
            rw [hup] at hu
            simp at hu
        | ok pr =>
            refine ⟨pr.1, pr.2, rfl, ?_⟩
            unfold OrderUseCases.cancel_order OrderRepository.get_by_id
            rw [hf]
            simp only [Option.map]
            rw [hent, hc]
            simp only [hu]
      · cases hu : OrderRepository.update s now { o with status := OrderStatus.PAID.value } with
        | error e =>
            exfalso
            unfold OrderRepository.update at hu
            rw [hup] at hu
            simp at hu
        | ok pr =>
            refine ⟨pr.1, pr.2, rfl, ?_⟩
            unfold OrderUseCases.mark_as_paid OrderRepository.get_by_id
            rw [hf]
            simp only [Option.map]
            rw [hent, hm]
            simp only [hu]

/-- Store with a CREATED order (id 3) for the lifecycle use-case witness. -/
def lifecycleStore : Stores :=
  { products := [], customers := []
    orders := [{ id := 3, customer_id := 1, total_amount := 10, status := "CREATED", idempotency_key := some "kx", created_at := 0, updated_at := none }]
    order_items := [], next_order_id := 4, next_item_id := 1 }

/-- C7 witness: on `lifecycleStore`, order 3 is fetched and both
transitions persist through the store update; order 99 is absent and both
use cases fail with `OrderNotFound`, store untouched. -/
theorem cancel_pay_fetch_transition_update_witness :
    (OrderUseCases.cancel_order lifecycleStore 99 5
      = (.error (.orderNotFound ("Pedido com ID " ++ toString (99 : Int) ++ " não encontrado")),
        lifecycleStore)) ∧
    ∃ o, OrderRepository.get_by_id lifecycleStore 3 = some o ∧
      o.status = OrderStatus.CREATED.value ∧
      ∃ ent s', OrderRepository.update lifecycleStore 5 { o with status := OrderStatus.CANCELLED.value }
          = .ok (ent, s') ∧ OrderUseCases.cancel_order lifecycleStore 3 5 = (.ok ent, s') := by
  have habs := (cancel_pay_fetch_transition_update lifecycleStore 99 5).1 (by rfl)
  have hsome := (cancel_pay_fetch_transition_update lifecycleStore 3 5).2
    (OrderRepository.to_entity lifecycleStore
      { id := 3, customer_id := 1, total_amount := 10, status := "CREATED", idempotency_key := some "kx", created_at := 0, updated_at := none })
    (by rfl)
  exact ⟨habs.1, _, by rfl, by rfl, (hsome.2 (by rfl)).1⟩

/-- The per-item loop splits over list concatenation: a failing prefix
short-circuits, a succeeding prefix continues with its accumulated items
and total. -/
theorem validateItems_append (s : Stores) (xs ys : List OrderItemCreate) :
    OrderUseCases.validateItems s (xs ++ ys)
      = match OrderUseCases.validateItems s xs with
        | .error e => .error e
        | .ok (is1, t1) =>
          match OrderUseCases.validateItems s ys with
          | .error e => .error e
          | .ok (is2, t2) => .ok (is1 ++ is2, t1 + t2) := by
  induction xs with
  | nil =>
      cases h : OrderUseCases.validateItems s ys with
      | error e => simp [OrderUseCases.validateItems, h]
      | ok p => obtain ⟨is2, t2⟩ := p; simp [OrderUseCases.validateItems, h]
  | cons x xs ih =>
      simp only [List.cons_append]
      rw [OrderUseCases.validateItems]
      conv_rhs => rw [OrderUseCases.validateItems]
      cases hp : ProductRepository.get_by_id s x.product_id with
      | none => rfl
      | some product =>
          dsimp only
          by_cases ha : product.is_active = false
          · rw [if_pos ha, if_pos ha]
          · simp only [if_neg ha]
            by_cases hs : product.stock_qty < x.quantity
            · simp only [if_pos hs]
            · simp only [if_neg hs]
              cases hv : (OrderItemEntity.init none none x.product_id product.price x.quantity
                  (some (product.price * (x.quantity : ℚ)))).validate with
              | error m => rfl
              | ok u =>
                  rw [ih]
                  cases h1 : OrderUseCases.validateItems s xs with
                  | error e => rfl
                  | ok p1 =>
                      obtain ⟨is1, t1⟩ := p1
                      cases h2 : OrderUseCases.validateItems s ys with
                      | error e => rfl
                      | ok p2 =>
                          obtain ⟨is2, t2⟩ := p2
                          simp [add_assoc]

/-- C4: the validation loop of order creation processes items in submission
order and fails fast. A failing prefix determines the result no matter what
follows (items after the first invalid one are never read); at the first
invalid item the error is `ProductNotFound` for an absent product, a
validation error naming the product for an inactive one, and
`InsufficientStock` — whose message carries the product name, the available
stock and the requested quantity — when `stock_qty < quantity`; and a
validation failure aborts `create_order` with that same error, leaving the
store untouched. -/
theorem per_item_validation_fail_fast (s : Stores) :
    (∀ xs ys e, OrderUseCases.validateItems s xs = .error e →
      OrderUseCases.validateItems s (xs ++ ys) = .error e) ∧
    (∀ pre acc, OrderUseCases.validateItems s pre = .ok acc →
      ∀ bad post,
      (ProductRepository.get_by_id s bad.product_id = none →
        OrderUseCases.validateItems s (pre ++ bad :: post)
          = .error (.productNotFound
              ("Produto com ID " ++ toString bad.product_id ++ " não encontrado"))) ∧
      (∀ p, ProductRepository.get_by_id s bad.product_id = some p →
        (p.is_active = false →
          OrderUseCases.validateItems s (pre ++ bad :: post)
            = .error (.valueError ("Produto " ++ sq ++ p.name ++ sq
                ++ " (ID " ++ toString bad.product_id ++ ") está inativo"))) ∧
        (p.is_active = true → p.stock_qty < bad.quantity →
          OrderUseCases.validateItems s (pre ++ bad :: post)
            = .error (.insufficientStock
                ("Estoque insuficiente para produto " ++ sq ++ p.name ++ sq
                  ++ ". Disponível: " ++ toString p.stock_qty
                  ++ ", Solicitado: " ++ toString bad.quantity))))) ∧
    (∀ d key now fault e c,
      s.orders.find? (fun r => r.idempotency_key = some key) = none →
      CustomerRepository.get_by_id s d.customer_id = some c →
      c.is_active = true →
      OrderUseCases.validateItems s d.items = .error e →
      OrderUseCases.create_order s d key now fault = (.error e, s)) := by
  refine ⟨?_, ?_, ?_⟩
  · intro xs ys e h
    rw [validateItems_append, h]
  · intro pre acc hpre bad post
    obtain ⟨is1, t1⟩ := acc
    have hhead : ∀ e, OrderUseCases.validateItems s (bad :: post) = .error e →
        OrderUseCases.validateItems s (pre ++ bad :: post) = .error e := by
      intro e he
      rw [validateItems_append, hpre, he]
    refine ⟨?_, ?_⟩
    · intro hnone
      apply hhead
      rw [OrderUseCases.validateItems, hnone]
    · intro p hp
      refine ⟨?_, ?_⟩
      · intro hina
        apply hhead
        rw [OrderUseCases.validateItems, hp]
        dsimp only
        rw [if_pos hina]
      · intro hact hstock
        apply hhead
        rw [OrderUseCases.validateItems, hp]
        dsimp only
        rw [if_neg (by simp [hact]), if_pos hstock]
  · intro d key now fault e c hkey hc hact hval
    unfold OrderUseCases.create_order
    simp only [OrderRepository.get_by_idempotency_key, hkey, Option.map, hc,
      hact, Bool.true_eq_false, if_neg, hval]
    rfl

/-- Catalog for the fail-fast witness: product 1 active with stock 3,
product 2 absent from the catalog. -/
def ffStore : Stores :=
  { products := [{ id := 1, name := "Soro", sku := "S1", price := 5, stock_qty := 3, is_active := true }]
    customers := [{ id := 1, is_active := true }]
    orders := [], order_items := [], next_order_id := 1, next_item_id := 1 }

/-- C4 witness: a request whose second item over-asks product 1 fails with
the `InsufficientStock` message naming the product, the 3 available and the
7 requested — identically whatever third item follows — and `create_order`
aborts with that error, store untouched. -/
theorem per_item_validation_fail_fast_witness :
    OrderUseCases.validateItems ffStore
        [⟨1, 2⟩, ⟨1, 7⟩, ⟨42, 1⟩]
      = .error (.insufficientStock ("Estoque insuficiente para produto " ++ sq ++ "Soro" ++ sq
          ++ ". Disponível: " ++ toString (3 : Int) ++ ", Solicitado: " ++ toString (7 : Int))) ∧
    OrderUseCases.create_order ffStore { customer_id := 1, items := [⟨1, 2⟩, ⟨1, 7⟩, ⟨42, 1⟩] }
        "kf" 0 none
      = (.error (.insufficientStock ("Estoque insuficiente para produto " ++ sq ++ "Soro" ++ sq
          ++ ". Disponível: " ++ toString (3 : Int) ++ ", Solicitado: " ++ toString (7 : Int))),
        ffStore) := by
  have h2 := ((per_item_validation_fail_fast ffStore).2.1 [⟨1, 2⟩]
      ([{ id := none, order_id := none, product_id := 1, unit_price := 5, quantity := 2, line_total := 10 }], 10)
      (by norm_num [OrderUseCases.validateItems, ProductRepository.get_by_id, ffStore,
        OrderItemEntity.init, OrderItemEntity.validate, OrderItemEntity.calculate_line_total,
        List.find?])
      ⟨1, 7⟩ [⟨42, 1⟩]).2
      { id := 1, name := "Soro", sku := "S1", price := 5, stock_qty := 3, is_active := true }
      (by rfl)
  have hval := h2.2 rfl (by norm_num)
  exact ⟨hval, (per_item_validation_fail_fast ffStore).2.2
    { customer_id := 1, items := [⟨1, 2⟩, ⟨1, 7⟩, ⟨42, 1⟩] } "kf" 0 none _
    { id := 1, is_active := true } rfl rfl rfl hval⟩

/-- An item entity built with the computed product as supplied line total
carries exactly that product (both branches of the falsy-`or` coincide). -/
theorem init_line_total_of_product (a b : Option Int) (pid : Int) (up : ℚ) (q : Int) :
    (OrderItemEntity.init a b pid up q (some (up * (q : ℚ)))).line_total = up * (q : ℚ) := by
  by_cases h : up * (q : ℚ) = 0 <;> simp [OrderItemEntity.init, h]

/-- What a successful validation loop guarantees: the accumulated total is
the sum of the items' unit_price × quantity, every built item's line_total
is its unit_price × quantity, every built item's unit_price is the price of
the cataloged product with its id, and every requested item referenced an
active product with sufficient stock. -/
theorem validateItems_ok_facts (s : Stores) :
    ∀ (xs : List OrderItemCreate) (items : List OrderItemEntity) (total : ℚ),
    OrderUseCases.validateItems s xs = .ok (items, total) →
    total = (items.map (fun it => it.unit_price * (it.quantity : ℚ))).sum ∧
    (∀ it ∈ items, it.line_total = it.unit_price * (it.quantity : ℚ)) ∧
    (∀ it ∈ items, ∃ p, ProductRepository.get_by_id s it.product_id = some p ∧
      it.unit_price = p.price) ∧
    (∀ x ∈ xs, ∃ p, ProductRepository.get_by_id s x.product_id = some p ∧
      p.is_active = true ∧ x.quantity ≤ p.stock_qty) := by
  intro xs
  induction xs with
  | nil =>
      intro items total h
      rw [OrderUseCases.validateItems] at h
      simp only [Except.ok.injEq, Prod.mk.injEq] at h
      obtain ⟨h1, h2⟩ := h
      subst h1; subst h2
      simp
  | cons x rest ih =>
      intro items total h
      rw [OrderUseCases.validateItems] at h
      cases hp : ProductRepository.get_by_id s x.product_id with
      | none => rw [hp] at h; exact absurd h (by simp)
      | some product =>
          rw [hp] at h
          dsimp only at h
          by_cases ha : product.is_active = false
          · rw [if_pos ha] at h; exact absurd h (by simp)
          · rw [if_neg ha] at h
            by_cases hs : product.stock_qty < x.quantity
            · rw [if_pos hs] at h; exact absurd h (by simp)
            · rw [if_neg hs] at h
              cases hv : (OrderItemEntity.init none none x.product_id product.price x.quantity
                  (some (product.price * (x.quantity : ℚ)))).validate with
              | error m => rw [hv] at h; exact absurd h (by simp)
              | ok u =>
                  rw [hv] at h
                  cases hrest : OrderUseCases.validateItems s rest with
                  | error e => rw [hrest] at h; exact absurd h (by simp)
                  | ok pr =>
                      obtain ⟨items1, total1⟩ := pr
                      rw [hrest] at h
                      simp only [Except.ok.injEq, Prod.mk.injEq] at h
                      obtain ⟨h1, h2⟩ := h
                      subst h1; subst h2
                      obtain ⟨ihA, ihB, ihC, ihD⟩ := ih items1 total1 hrest
                      refine ⟨?_, ?_, ?_, ?_⟩
                      · simp only [List.map_cons, List.sum_cons, ← ihA,
                          init_line_total_of_product]
                        simp [OrderItemEntity.init]
                      · intro it hit
                        rcases List.mem_cons.mp hit with hh | hh
                        · subst hh
                          simp only [init_line_total_of_product]
                          simp [OrderItemEntity.init]
                        · exact ihB it hh
                      · intro it hit
                        rcases List.mem_cons.mp hit with hh | hh
                        · subst hh
                          exact ⟨product, by simpa [OrderItemEntity.init] using hp,
                            by simp [OrderItemEntity.init]⟩
                        · exact ihC it hh
                      · intro y hy
                        rcases List.mem_cons.mp hy with hh | hh
                        · subst hh
                          exact ⟨product, hp, by simpa using ha, le_of_not_lt hs⟩
                        · exact ihD y hh

/-- Inversion of a successful, non-replayed `create_order` run: the item
loop succeeded, the aggregate was persisted through `OrderRepository.create`
and the stock loop and final commit ran. -/
theorem create_order_ok_inv (s : Stores) (d : OrderCreate) (key : String) (now : Int)
    (fault : Option Nat) (o : OrderEntity) (s' : Stores)
    (hkey : s.orders.find? (fun r => r.idempotency_key = some key) = none)
    (h : OrderUseCases.create_order s d key now fault = (.ok o, s')) :
    ∃ items total db2,
      OrderUseCases.validateItems s d.items = .ok (items, total) ∧
      o = (OrderRepository.create ⟨s, s⟩ now
        { id := none, customer_id := d.customer_id, total_amount := total,
          status := OrderStatus.CREATED.value, idempotency_key := some key,
          created_at := none, updated_at := none, items := items }).1 ∧
      OrderUseCases.stockLoop fault 0 (OrderRepository.create ⟨s, s⟩ now
        { id := none, customer_id := d.customer_id, total_amount := total,
          status := OrderStatus.CREATED.value, idempotency_key := some key,
          created_at := none, updated_at := none, items := items }).2 d.items = .ok db2 ∧
      s' = db2.pending := by
  unfold OrderUseCases.create_order at h
  simp only [OrderRepository.get_by_idempotency_key, hkey, Option.map] at h
  cases hc : CustomerRepository.get_by_id s d.customer_id with
  | none => rw [hc] at h; exact absurd h (by simp)
  | some c =>
      rw [hc] at h
      dsimp only at h
      by_cases hca : c.is_active = false
      · rw [if_pos hca] at h; exact absurd h (by simp)
      · rw [if_neg hca] at h
        cases hv : OrderUseCases.validateItems s d.items with
        | error e => rw [hv] at h; exact absurd h (by simp)
        | ok pr =>
            obtain ⟨items, total⟩ := pr
            rw [hv] at h
            dsimp only at h
            cases hov : OrderEntity.validate
                { id := none, customer_id := d.customer_id, total_amount := total,
                  status := OrderStatus.CREATED.value, idempotency_key := some key,
                  created_at := none, updated_at := none, items := items } with
            | error m => rw [hov] at h; exact absurd h (by simp)
            | ok u =>
                rw [hov] at h
                cases hsl : OrderUseCases.stockLoop fault 0 (OrderRepository.create ⟨s, s⟩ now
                    { id := none, customer_id := d.customer_id, total_amount := total,
                      status := OrderStatus.CREATED.value, idempotency_key := some key,
                      created_at := none, updated_at := none, items := items }).2 d.items with
                | error e => rw [hsl] at h; exact absurd h (by simp)
                | ok db2 =>
                    rw [hsl] at h
                    simp only [Prod.mk.injEq, Except.ok.injEq] at h
                    exact ⟨items, total, db2, rfl, h.1.symm, hsl, h.2.symm⟩

/-- The priced fields of an order item: (product_id, unit_price, quantity,
line_total). -/
def itemFields (it : OrderItemEntity) : Int × ℚ × Int × ℚ :=
  (it.product_id, it.unit_price, it.quantity, it.line_total)

/-- Every row inserted by `create` references the generated order id. -/
theorem itemRowsFrom_order_id (oid : Int) :
    ∀ (items : List OrderItemEntity) (nid : Int),
    ∀ r ∈ OrderRepository.itemRowsFrom oid nid items, r.order_id = oid := by
  intro items
  induction items with
  | nil => intro nid r hr; cases hr
  | cons it rest ih =>
      intro nid r hr
      rw [OrderRepository.itemRowsFrom] at hr
      rcases List.mem_cons.mp hr with hh | hh
      · subst hh; rfl
      · exact ih (nid + 1) r hh

/-- Reloading the inserted item rows through the `OrderItemEntity`
constructor preserves the priced fields, provided each item's line_total is
the computed product (so the constructor's falsy-`or` is the identity). -/
theorem itemRowsFrom_roundtrip (oid : Int) :
    ∀ (items : List OrderItemEntity),
    (∀ it ∈ items, it.line_total = it.unit_price * (it.quantity : ℚ)) →
    ∀ (nid : Int),
    ((OrderRepository.itemRowsFrom oid nid items).map (fun r =>
      OrderItemEntity.init (some r.id) (some r.order_id) r.product_id r.unit_price r.quantity
        (some r.line_total))).map itemFields = items.map itemFields := by
  intro items
  induction items with
  | nil => intro _ nid; rfl
  | cons it rest ih =>
      intro hlt nid
      rw [OrderRepository.itemRowsFrom]
      simp only [List.map_cons]
      have hhead : itemFields (OrderItemEntity.init (some nid) (some oid) it.product_id
          it.unit_price it.quantity (some it.line_total)) = itemFields it := by
        have h0 := hlt it (List.mem_cons_self it rest)
        by_cases hz : it.line_total = 0 <;>
          simp [itemFields, OrderItemEntity.init, hz, ← h0]
      rw [hhead, ih (fun a ha => hlt a (List.mem_cons_of_mem it ha)) (nid + 1)]

/-- C3: totals of a freshly created order. For every successful
`create_order` run whose key was not already stored (a genuine creation,
not an idempotent replay), the returned order's `total_amount` is exactly
the sum over its items of `unit_price × quantity`, each item's `line_total`
is exactly its `unit_price × quantity` — all values are exact rationals, so
there is no floating rounding drift — and each item's `unit_price` is the
catalog price of its product at creation time. The well-formedness
hypothesis (no stray stored item row already references the next order id)
is foreign-key integrity of the item table. -/
theorem create_order_totals (s : Stores) (d : OrderCreate) (key : String) (now : Int)
    (fault : Option Nat) (o : OrderEntity) (s' : Stores)
    (hkey : s.orders.find? (fun r => r.idempotency_key = some key) = none)
    (hwf : ∀ it ∈ s.order_items, it.order_id ≠ s.next_order_id)
    (h : OrderUseCases.create_order s d key now fault = (.ok o, s')) :
    o.total_amount = (o.items.map (fun it => it.unit_price * (it.quantity : ℚ))).sum ∧
    (∀ it ∈ o.items, it.line_total = it.unit_price * (it.quantity : ℚ)) ∧
    (∀ it ∈ o.items, ∃ p, ProductRepository.get_by_id s it.product_id = some p ∧
      it.unit_price = p.price) := by
  obtain ⟨items, total, db2, hv, ho, hsl, hs'⟩ :=
    create_order_ok_inv s d key now fault o s' hkey h
  obtain ⟨hA, hB, hC, _⟩ := validateItems_ok_facts s d.items items total hv
  subst ho
  simp only [OrderRepository.create, OrderRepository.to_entity]
  dsimp only
  rw [List.filter_append]
  rw [List.filter_eq_nil_iff.mpr (fun a ha => by simpa using hwf a ha)]
  rw [List.filter_eq_self.mpr (fun a ha => by
    simpa using itemRowsFrom_order_id s.next_order_id items s.next_item_id a ha)]
  rw [List.nil_append]
  have hfields := itemRowsFrom_roundtrip s.next_order_id items hB s.next_item_id
  have hmaps : ∀ (l : List OrderItemEntity),
      l.map (fun it => it.unit_price * (it.quantity : ℚ))
        = (l.map itemFields).map (fun t => t.2.1 * (t.2.2.1 : ℚ)) := by
    intro l
    rw [List.map_map]
    rfl
  refine ⟨?_, ?_, ?_⟩
  · rw [hmaps, hfields, ← hmaps, ← hA]
  · intro it hit
    have hmem : itemFields it ∈ items.map itemFields := by
      rw [← hfields]
      exact List.mem_map_of_mem itemFields hit
    obtain ⟨it', hit', heq⟩ := List.mem_map.mp hmem
    simp only [itemFields, Prod.mk.injEq] at heq
    obtain ⟨e1, e2, e3, e4⟩ := heq
    rw [← e2, ← e3, ← e4]
    exact hB it' hit'
  · intro it hit
    have hmem : itemFields it ∈ items.map itemFields := by
      rw [← hfields]
      exact List.mem_map_of_mem itemFields hit
    obtain ⟨it', hit', heq⟩ := List.mem_map.mp hmem
    simp only [itemFields, Prod.mk.injEq] at heq
    obtain ⟨e1, e2, e3, e4⟩ := heq
    rw [← e1, ← e2]
    exact hC it' hit'

/-- The spec §8 example catalog: product A (price 10, stock 100), product B
(price 15, stock 50), customer 1 active. -/
def totalsStore : Stores :=
  { products := [{ id := 1, name := "A", sku := "SA", price := 10, stock_qty := 100, is_active := true }, { id := 2, name := "B", sku := "SB", price := 15, stock_qty := 50, is_active := true }]
    customers := [{ id := 1, is_active := true }]
    orders := [], order_items := [], next_order_id := 1, next_item_id := 1 }

/-- The spec §8 example request: 2 of A and 3 of B. -/
def totalsReq : OrderCreate :=
  { customer_id := 1, items := [{ product_id := 1, quantity := 2 }, { product_id := 2, quantity := 3 }] }

/-- The order created by the spec §8 example run (total 10×2 + 15×3 = 65). -/
def totalsOrder : OrderEntity :=
  { id := some 1, customer_id := 1, total_amount := 65, status := "CREATED",
    idempotency_key := some "kt", created_at := some 0, updated_at := none,
    items := [{ id := some 1, order_id := some 1, product_id := 1, unit_price := 10, quantity := 2, line_total := 20 }, { id := some 2, order_id := some 1, product_id := 2, unit_price := 15, quantity := 3, line_total := 45 }] }

/-- The committed state after the spec §8 example run (stocks 98 and 47). -/
def totalsFinal : Stores :=
  { products := [{ id := 1, name := "A", sku := "SA", price := 10, stock_qty := 98, is_active := true }, { id := 2, name := "B", sku := "SB", price := 15, stock_qty := 47, is_active := true }]
    customers := [{ id := 1, is_active := true }]
    orders := [{ id := 1, customer_id := 1, total_amount := 65, status := "CREATED", idempotency_key := some "kt", created_at := 0, updated_at := none }]
    order_items := [{ id := 1, order_id := 1, product_id := 1, unit_price := 10, quantity := 2, line_total := 20 }, { id := 2, order_id := 1, product_id := 2, unit_price := 15, quantity := 3, line_total := 45 }]
    next_order_id := 2, next_item_id := 3 }

/-- C3 witness: the spec §8 example order satisfies the totals property. -/
theorem create_order_totals_witness :
    totalsOrder.total_amount
      = (totalsOrder.items.map (fun it => it.unit_price * (it.quantity : ℚ))).sum ∧
    (∀ it ∈ totalsOrder.items, it.line_total = it.unit_price * (it.quantity : ℚ)) ∧
    (∀ it ∈ totalsOrder.items, ∃ p, ProductRepository.get_by_id totalsStore it.product_id = some p ∧
      it.unit_price = p.price) :=
  create_order_totals totalsStore totalsReq "kt" 0 none totalsOrder totalsFinal
    (by rfl) (by simp [totalsStore])
    (by
      norm_num [OrderUseCases.create_order, OrderUseCases.validateItems,
        OrderUseCases.stockLoop, OrderRepository.get_by_idempotency_key, OrderRepository.create,
        OrderRepository.to_entity, OrderRepository.itemRowsFrom, CustomerRepository.get_by_id,
        ProductRepository.get_by_id, ProductRepository.update, OrderItemEntity.init,
        OrderItemEntity.validate, OrderItemEntity.calculate_line_total, OrderEntity.validate,
        OrderStatus.value, OrderStatus.values, DB.commit, DB.rollback, totalsStore, totalsReq,
        totalsOrder, totalsFinal, List.find?]
      rfl)

/-- Total quantity a request asks for a given product id (summing over
duplicate occurrences). -/
def requestedQty (items : List OrderItemCreate) (pid : Int) : Int :=
  ((items.filter (fun x => x.product_id = pid)).map (fun x => x.quantity)).sum

/-- `requestedQty` over a cons. -/
theorem requestedQty_cons (x : OrderItemCreate) (items : List OrderItemCreate) (pid : Int) :
    requestedQty (x :: items) pid
      = (if x.product_id = pid then x.quantity else 0) + requestedQty items pid := by
  by_cases h : x.product_id = pid <;> simp [requestedQty, h, List.filter_cons]

/-- `find?`-by-id commutes with an id-preserving map. -/
theorem find?_map_of_id_preserved (g : ProductEntity → ProductEntity)
    (hg : ∀ p, (g p).id = p.id) (pid : Int) :
    ∀ (ps : List ProductEntity),
    (ps.map g).find? (fun r => r.id = pid) = (ps.find? (fun r => r.id = pid)).map g := by
  intro ps
  induction ps with
  | nil => rfl
  | cons p ps ih =>
      simp only [List.map_cons, List.find?_cons, hg p]
      by_cases h : p.id = pid
      · simp [h]
      · simp [h, ih]

/-- `ProductRepository.update` on a decremented copy of a found product:
it finds the same row (same primary key, same SKU — so no uniqueness check
fires), overwrites it in place and flushes. -/
theorem product_update_found (s : Stores) (product : ProductEntity) (q : Int)
    (hfind : s.products.find? (fun r => r.id = product.id) = some product) :
    ProductRepository.update s { product with stock_qty := product.stock_qty - q }
      = .ok ({ product with stock_qty := product.stock_qty - q },
        { s with products := s.products.map (fun p =>
            if p.id = product.id then { product with stock_qty := product.stock_qty - q }
            else p) }) := by
  unfold ProductRepository.update
  rw [show s.products.find? (fun p =>
      p.id = ({ product with stock_qty := product.stock_qty - q } : ProductEntity).id)
    = some product from hfind]
  dsimp only
  rw [if_neg (by simp)]

/-- What a successful stock-decrement loop does to the session: it never
commits (the committed snapshot is untouched), it leaves every table but
`products` and both counters unchanged, it preserves the products' ids in
order, and the first row of each product id loses exactly the total
quantity the processed items request for that id. -/
theorem stockLoop_ok_spec :
    ∀ (items : List OrderItemCreate) (fault : Option Nat) (idx : Nat) (db db' : DB),
    OrderUseCases.stockLoop fault idx db items = .ok db' →
    db'.committed = db.committed ∧
    db'.pending.customers = db.pending.customers ∧
    db'.pending.orders = db.pending.orders ∧
    db'.pending.order_items = db.pending.order_items ∧
    db'.pending.next_order_id = db.pending.next_order_id ∧
    db'.pending.next_item_id = db.pending.next_item_id ∧
    db'.pending.products.map (fun p => p.id) = db.pending.products.map (fun p => p.id) ∧
    ∀ (pid : Int) (p : ProductEntity),
      db.pending.products.find? (fun r => r.id = pid) = some p →
      db'.pending.products.find? (fun r => r.id = pid)
        = some { p with stock_qty := p.stock_qty - requestedQty items pid } := by
  intro items
  induction items with
  | nil =>
      intro fault idx db db' h
      rw [OrderUseCases.stockLoop] at h
      obtain rfl : db = db' := by injection h
      refine ⟨rfl, rfl, rfl, rfl, rfl, rfl, rfl, ?_⟩
      intro pid p hp
      have hz : p.stock_qty - requestedQty [] pid = p.stock_qty := by
        simp [requestedQty]
      rw [hz]
      exact hp
  | cons x rest ih =>
      intro fault idx db db' h
      rw [OrderUseCases.stockLoop] at h
      by_cases hf : fault = some idx
      · rw [if_pos hf] at h; exact absurd h (by simp)
      · rw [if_neg hf] at h
        cases hg : ProductRepository.get_by_id db.pending x.product_id with
        | none => rw [hg] at h; exact absurd h (by simp)
        | some product =>
            rw [hg] at h
            dsimp only at h
            have hpid : product.id = x.product_id := by
              unfold ProductRepository.get_by_id at hg
              simpa using List.find?_some hg
            have hfind : db.pending.products.find? (fun r => r.id = product.id) = some product := by
              unfold ProductRepository.get_by_id at hg
              rw [find?_pred_congr _ _ (fun r => r.id = x.product_id)
                (fun a => by rw [hpid])]
              exact hg
            rw [product_update_found db.pending product x.quantity hfind] at h
            dsimp only at h
            obtain ⟨c1, c2, c3, c4, c5, c6, c7, c8⟩ := ih fault (idx + 1) _ db' h
            have hgid : ∀ p : ProductEntity,
                ((fun p => if p.id = product.id
                    then { product with stock_qty := product.stock_qty - x.quantity }
                    else p) p).id = p.id := by
              intro p
              by_cases hh : p.id = product.id
              · simp [hh]
              · simp [hh]
            refine ⟨c1, c2, c3, c4, c5, c6, ?_, ?_⟩
            · rw [c7]
              dsimp only
              rw [List.map_map]
              apply List.map_congr_left
              intro a _
              exact hgid a
            · intro pid p hp
              rw [requestedQty_cons]
              have hpmem : p.id = pid := by
                simpa using List.find?_some hp
              have hmap : (db.pending.products.map (fun p =>
                  if p.id = product.id
                  then { product with stock_qty := product.stock_qty - x.quantity }
                  else p)).find? (fun r => r.id = pid)
                  = some (if p.id = product.id
                      then { product with stock_qty := product.stock_qty - x.quantity }
                      else p) := by
                rw [find?_map_of_id_preserved _ hgid pid, hp]
                rfl
              by_cases hx : x.product_id = pid
              · have hpp : p = product := by
                  rw [← hx] at hp
                  rw [← hpid] at hp
                  rw [hp] at hfind
                  exact ((Option.some.injEq _ _).mp hfind.symm).symm
                subst hpp
                rw [if_pos hx]
                have hres := c8 pid _ hmap
                rw [if_pos (hpmem.trans (hpid.trans hx).symm)] at hres
                rw [hres]
                rw [show p.stock_qty - x.quantity - requestedQty rest pid
                  = p.stock_qty - (x.quantity + requestedQty rest pid) from by omega]
              · have hne : p.id ≠ product.id := by
                  rw [hpmem, hpid]
                  exact fun hh => hx hh.symm
                rw [if_neg hx]
                have hres := c8 pid _ hmap
                rw [if_neg hne] at hres
                rw [hres]
                rw [show p.stock_qty - requestedQty rest pid
                  = p.stock_qty - (0 + requestedQty rest pid) from by omega]

/-- Every failing `create_order` run leaves the committed catalog
untouched: validation failures roll back before any write, and a step-6
failure rolls back the flushed-but-uncommitted decrements. -/
theorem create_order_error_products (s : Stores) (d : OrderCreate) (key : String) (now : Int)
    (fault : Option Nat) (e : Err) (s' : Stores)
    (h : OrderUseCases.create_order s d key now fault = (.error e, s')) :
    s'.products = s.products := by
  unfold OrderUseCases.create_order at h
  cases hk : s.orders.find? (fun r => r.idempotency_key = some key) with
  | some row =>
      simp only [OrderRepository.get_by_idempotency_key, hk, Option.map] at h
      exact absurd h (by simp)
  | none =>
      simp only [OrderRepository.get_by_idempotency_key, hk, Option.map] at h
      cases hc : CustomerRepository.get_by_id s d.customer_id with
      | none =>
          rw [hc] at h
          dsimp only at h
          simp only [Prod.mk.injEq] at h
          rw [← h.2]
          rfl
      | some c =>
          rw [hc] at h
          dsimp only at h
          by_cases hca : c.is_active = false
          · rw [if_pos hca] at h
            simp only [Prod.mk.injEq] at h
            rw [← h.2]
            rfl
          · rw [if_neg hca] at h
            cases hv : OrderUseCases.validateItems s d.items with
            | error e2 =>
                rw [hv] at h
                simp only [Prod.mk.injEq] at h
                rw [← h.2]
                rfl
            | ok pr =>
                obtain ⟨items, total⟩ := pr
                rw [hv] at h
                dsimp only at h
                cases hov : OrderEntity.validate
                    { id := none, customer_id := d.customer_id, total_amount := total,
                      status := OrderStatus.CREATED.value, idempotency_key := some key,
                      created_at := none, updated_at := none, items := items } with
                | error m =>
                    rw [hov] at h
                    simp only [Prod.mk.injEq] at h
                    rw [← h.2]
                    rfl
                | ok u =>
                    rw [hov] at h
                    cases hsl : OrderUseCases.stockLoop fault 0 (OrderRepository.create ⟨s, s⟩ now
                        { id := none, customer_id := d.customer_id, total_amount := total,
                          status := OrderStatus.CREATED.value, idempotency_key := some key,
                          created_at := none, updated_at := none, items := items }).2 d.items with
                    | error e2 =>
                        rw [hsl] at h
                        simp only [Prod.mk.injEq] at h
                        rw [← h.2]
                        rfl
                    | ok db2 =>
                        rw [hsl] at h
                        exact absurd h (by simp)

/-- With pairwise-distinct ids, `find?`-by-own-id returns each element. -/
theorem find?_self_of_nodup_ids :
    ∀ (ps : List ProductEntity), (ps.map (fun p => p.id)).Nodup →
    ∀ p ∈ ps, ps.find? (fun r => r.id = p.id) = some p := by
  intro ps
  induction ps with
  | nil => intro _ p hp; cases hp
  | cons a l ih =>
      intro h p hp
      rw [List.map_cons, List.nodup_cons] at h
      rcases List.mem_cons.mp hp with hh | hh
      · subst hh; simp [List.find?_cons]
      · have hne : ¬ (a.id = p.id) := by
          intro hid
          exact h.1 (hid ▸ List.mem_map_of_mem (fun p => p.id) hh)
        rw [List.find?_cons]
        rw [show decide (a.id = p.id) = false from by simpa using hne]
        exact ih h.2 p hh

/-- With pairwise-distinct product ids in the request, the requested total
for each listed item is exactly its quantity. -/
theorem requestedQty_eq_of_nodup :
    ∀ (items : List OrderItemCreate), (items.map (fun x => x.product_id)).Nodup →
    ∀ x ∈ items, requestedQty items x.product_id = x.quantity := by
  intro items
  induction items with
  | nil => intro _ x hx; cases hx
  | cons a l ih =>
      intro h x hx
      rw [List.map_cons, List.nodup_cons] at h
      rw [requestedQty_cons]
      rcases List.mem_cons.mp hx with hh | hh
      · subst hh
        rw [if_pos rfl]
        have hz : requestedQty l x.product_id = 0 := by
          unfold requestedQty
          rw [List.filter_eq_nil_iff.mpr (fun a2 ha2 => by
            simp only [decide_eq_true_eq]
            intro heq
            exact h.1 (heq ▸ List.mem_map_of_mem (fun y => y.product_id) ha2))]
          rfl
        rw [hz]
        omega
      · have hne : a.product_id ≠ x.product_id := by
          intro heq
          exact h.1 (heq ▸ List.mem_map_of_mem (fun y => y.product_id) hh)
        rw [if_neg hne, ih h.2 x hh]
        omega

/-- A nonzero requested total means some item lists the product. -/
theorem requestedQty_ne_zero_mem (items : List OrderItemCreate) (pid : Int)
    (h : requestedQty items pid ≠ 0) : ∃ x ∈ items, x.product_id = pid := by
  by_contra hn
  push_neg at hn
  apply h
  unfold requestedQty
  rw [List.filter_eq_nil_iff.mpr (fun a ha => by simpa using hn a ha)]
  rfl

/-- C5 (amended): stock conservation of order creation. After any failed
run the catalog is unchanged. After a successful fresh creation, the stored
row of every product id loses exactly the total quantity the request asks
for that id (0 for unrequested products); in particular, with
pairwise-distinct product ids in the request, a product with prior stock s
ordered with quantity q ends at exactly s − q. The invariant
`stock_qty ≥ 0` is preserved **when the request's product ids are
pairwise distinct** (and product ids are unique, as the primary key
guarantees); a request listing the same product id in more than one item is
validated item-by-item against the undecremented stock and can drive
`stock_qty` negative — see the counterexample. -/
theorem stock_conservation (s : Stores) (d : OrderCreate) (key : String) (now : Int)
    (fault : Option Nat) :
    (∀ e s', OrderUseCases.create_order s d key now fault = (.error e, s') →
      s'.products = s.products) ∧
    (∀ o s', OrderUseCases.create_order s d key now fault = (.ok o, s') →
      s.orders.find? (fun r => r.idempotency_key = some key) = none →
      (∀ pid p, s.products.find? (fun r => r.id = pid) = some p →
        s'.products.find? (fun r => r.id = pid)
          = some { p with stock_qty := p.stock_qty - requestedQty d.items pid }) ∧
      ((d.items.map (fun x => x.product_id)).Nodup →
        ∀ x ∈ d.items, ∀ p, s.products.find? (fun r => r.id = x.product_id) = some p →
          s'.products.find? (fun r => r.id = x.product_id)
            = some { p with stock_qty := p.stock_qty - x.quantity }) ∧
      ((d.items.map (fun x => x.product_id)).Nodup →
        (s.products.map (fun p => p.id)).Nodup →
        (∀ p ∈ s.products, 0 ≤ p.stock_qty) →
        ∀ p' ∈ s'.products, 0 ≤ p'.stock_qty)) := by
  constructor
  · exact fun e s' h => create_order_error_products s d key now fault e s' h
  · intro o s' h hkey
    obtain ⟨items, total, db2, hv, ho, hsl, hs'⟩ :=
      create_order_ok_inv s d key now fault o s' hkey h
    obtain ⟨_, _, _, hD⟩ := validateItems_ok_facts s d.items items total hv
    obtain ⟨c1, c2, c3, c4, c5, c6, c7, c8⟩ := stockLoop_ok_spec d.items fault 0 _ db2 hsl
    subst hs'
    have hcons : ∀ pid p, s.products.find? (fun r => r.id = pid) = some p →
        db2.pending.products.find? (fun r => r.id = pid)
          = some { p with stock_qty := p.stock_qty - requestedQty d.items pid } := by
      intro pid p hp
      exact c8 pid p hp
    refine ⟨hcons, ?_, ?_⟩
    · intro hnod x hx p hp
      rw [hcons x.product_id p hp, requestedQty_eq_of_nodup d.items hnod x hx]
    · intro hnod hpnod hpos p' hp'
      have hids : db2.pending.products.map (fun p => p.id) = s.products.map (fun p => p.id) := c7
      have hfind' : db2.pending.products.find? (fun r => r.id = p'.id) = some p' :=
        find?_self_of_nodup_ids _ (by rw [hids]; exact hpnod) p' hp'
      have hmm : p'.id ∈ s.products.map (fun p => p.id) := by
        rw [← hids]
        exact List.mem_map_of_mem _ hp'
      obtain ⟨p0, hp0mem, hp0id⟩ := List.mem_map.mp hmm
      have hp1some : (s.products.find? (fun r => r.id = p'.id)).isSome :=
        List.find?_isSome.mpr ⟨p0, hp0mem, by simp [hp0id]⟩
      obtain ⟨p1, hp1⟩ := Option.isSome_iff_exists.mp hp1some
      have hp1id : p1.id = p'.id := by simpa using List.find?_some hp1
      have hcomb := hcons p'.id p1 hp1
      rw [hfind'] at hcomb
      have heq : p' = { p1 with stock_qty := p1.stock_qty - requestedQty d.items p'.id } :=
        (Option.some.injEq _ _).mp hcomb
      have hstock : p'.stock_qty = p1.stock_qty - requestedQty d.items p'.id := by
        conv_lhs => rw [heq]
      by_cases hz : requestedQty d.items p'.id = 0
      · have hmem1 : p1 ∈ s.products := List.mem_of_find?_eq_some hp1
        have := hpos p1 hmem1
        rw [hstock, hz]
        omega
      · obtain ⟨x, hx, hxpid⟩ := requestedQty_ne_zero_mem _ _ hz
        obtain ⟨p2, hp2, _, hle⟩ := hD x hx
        have hp21 : p2 = p1 := by
          unfold ProductRepository.get_by_id at hp2
          rw [hxpid] at hp2
          rw [hp2] at hp1
          exact (Option.some.injEq _ _).mp hp1
        have hq : requestedQty d.items p'.id = x.quantity := by
          rw [← hxpid]
          exact requestedQty_eq_of_nodup d.items hnod x hx
        rw [hstock, hq]
        rw [hp21] at hle
        omega

/-- Catalog with a single product (stock 3) and an active customer. -/
def dupStore : Stores :=
  { products := [{ id := 1, name := "P", sku := "S", price := 10, stock_qty := 3, is_active := true }]
    customers := [{ id := 1, is_active := true }]
    orders := [], order_items := [], next_order_id := 1, next_item_id := 1 }

/-- A request listing the same product in two items of quantity 2 each
(4 > 3 in total, but each item alone fits the stock). -/
def dupReq : OrderCreate :=
  { customer_id := 1, items := [{ product_id := 1, quantity := 2 }, { product_id := 1, quantity := 2 }] }

/-- The order the duplicate-item request successfully creates. -/
def dupOrder : OrderEntity :=
  { id := some 1, customer_id := 1, total_amount := 40, status := "CREATED",
    idempotency_key := some "kd", created_at := some 0, updated_at := none,
    items := [{ id := some 1, order_id := some 1, product_id := 1, unit_price := 10, quantity := 2, line_total := 20 }, { id := some 2, order_id := some 1, product_id := 1, unit_price := 10, quantity := 2, line_total := 20 }] }

/-- C5 counterexample: the invariant `stock_qty ≥ 0` is **not** preserved
for requests listing the same product id twice. With stock 3 and two items
of quantity 2 for product 1, each item is validated against the
undecremented stock (2 ≤ 3 twice), the order is created successfully, and
step 6 decrements twice: the committed stock ends at −1. -/
theorem stock_nonneg_violated_on_duplicate_request :
    (∀ p ∈ dupStore.products, 0 ≤ p.stock_qty) ∧
    (OrderUseCases.create_order dupStore dupReq "kd" 0 none).1 = .ok dupOrder ∧
    ((OrderUseCases.create_order dupStore dupReq "kd" 0 none).2.products.map
      (fun p => p.stock_qty)) = [-1] := by
  refine ⟨by decide, ?_, ?_⟩ <;>
    · norm_num [OrderUseCases.create_order, OrderUseCases.validateItems,
        OrderUseCases.stockLoop, OrderRepository.get_by_idempotency_key, OrderRepository.create,
        OrderRepository.to_entity, OrderRepository.itemRowsFrom, CustomerRepository.get_by_id,
        ProductRepository.get_by_id, ProductRepository.update, OrderItemEntity.init,
        OrderItemEntity.validate, OrderItemEntity.calculate_line_total, OrderEntity.validate,
        OrderStatus.value, OrderStatus.values, DB.commit, DB.rollback, dupStore, dupReq,
        dupOrder, List.find?]
      rfl

/-- C5 witness: the spec §8 example run (distinct product ids) applied to
the amended conservation theorem — product A drops 100 → 98, product B
50 → 47, and the catalog stays non-negative. -/
theorem stock_conservation_witness :
    totalsFinal.products.find? (fun r => r.id = 1)
      = some { id := 1, name := "A", sku := "SA", price := 10, stock_qty := 100 - 2, is_active := true } ∧
    totalsFinal.products.find? (fun r => r.id = 2)
      = some { id := 2, name := "B", sku := "SB", price := 15, stock_qty := 50 - 3, is_active := true } ∧
    ∀ p' ∈ totalsFinal.products, 0 ≤ p'.stock_qty := by
  have h := (stock_conservation totalsStore totalsReq "kt" 0 none).2 totalsOrder totalsFinal
    (by
      norm_num [OrderUseCases.create_order, OrderUseCases.validateItems,
        OrderUseCases.stockLoop, OrderRepository.get_by_idempotency_key, OrderRepository.create,
        OrderRepository.to_entity, OrderRepository.itemRowsFrom, CustomerRepository.get_by_id,
        ProductRepository.get_by_id, ProductRepository.update, OrderItemEntity.init,
        OrderItemEntity.validate, OrderItemEntity.calculate_line_total, OrderEntity.validate,
        OrderStatus.value, OrderStatus.values, DB.commit, DB.rollback, totalsStore, totalsReq,
        totalsOrder, totalsFinal, List.find?]
      rfl)
    rfl
  refine ⟨?_, ?_, h.2.2 (by decide) (by decide) (by decide)⟩
  · exact h.2.1 (by decide) { product_id := 1, quantity := 2 } (by decide)
      { id := 1, name := "A", sku := "SA", price := 10, stock_qty := 100, is_active := true } (by rfl)
  · exact h.2.1 (by decide) { product_id := 2, quantity := 3 } (by decide)
      { id := 2, name := "B", sku := "SB", price := 15, stock_qty := 50, is_active := true } (by rfl)

end TopSaude
